import Mathlib

/-!
Verification development for the FarmFlow farm-operations API.

The executable definitions below are shallow embeddings of the JavaScript
source: dates are modelled as integer day numbers (civil-calendar day
arithmetic, as in date-fns `addDays`), JavaScript numbers carrying money,
quantities and yields are modelled as rationals, and database state is
modelled as explicit lists of records.  Each definition names the source
function it embeds.
-/

/- ## Calendar

Civil (proleptic Gregorian) date to day-number conversion, so that concrete
dates such as 2024-06-20 can be used in theorems.  Day 0 is 1970-01-01.
`addDays` from date-fns becomes integer addition on day numbers. -/

/-- Day number of the civil date y-m-d (days since 1970-01-01). -/
def daysFromCivil (y m d : Int) : Int :=
  let y2 := if m ≤ 2 then y - 1 else y
  let era := (if 0 ≤ y2 then y2 else y2 - 399) / 400
  let yoe := y2 - era * 400
  let mp := (m + 9) % 12
  let doy := (153 * mp + 2) / 5 + d - 1
  let doe := yoe * 365 + yoe / 4 - yoe / 100 + doy
  era * 146097 + doe - 719468

/-- Day of week of a day number, JavaScript `Date.getDay` convention
(0 = Sunday … 6 = Saturday); day 0 (1970-01-01) was a Thursday. -/
def weekdayOf (d : Int) : Nat := ((d + 4) % 7).toNat

/- ## Rational helpers mirroring JavaScript `Math` functions -/

/-- JavaScript `Math.floor` on an exact rational. -/
def jsFloor (q : ℚ) : ℤ := q.num / (q.den : ℤ)

/-- JavaScript `Math.ceil` on an exact rational. -/
def jsCeil (q : ℚ) : ℤ := -((-q.num) / (q.den : ℤ))

/-- JavaScript `Math.round` on an exact rational (half rounds up). -/
def jsRound (q : ℚ) : ℤ := jsFloor (q + 1/2)

theorem jsFloor_eq_floor (q : ℚ) : jsFloor q = ⌊q⌋ := by
  rw [Rat.floor_def]; rfl

theorem jsCeil_eq_ceil (q : ℚ) : jsCeil q = ⌈q⌉ := by
  have h : (⌈q⌉ : ℤ) = -⌊-q⌋ := by
    simp [Int.floor_neg]
  rw [h, ← jsFloor_eq_floor]
  simp [jsFloor, jsCeil, Rat.neg_num, Rat.neg_den]

theorem jsRound_eq_round (q : ℚ) : jsRound q = round q := by
  rw [round_eq, jsRound, jsFloor_eq_floor]

/- ## Shared data model -/

/-- Crop categories distinguished by the task generator
(`crop.category === 'microgreens' | 'mushrooms'`). -/
inductive CropCategory
  | microgreens
  | mushrooms
  | otherCrop
deriving DecidableEq

/-- Task types emitted by the generators (`type:` field of created tasks). -/
inductive TaskType
  | soak
  | plant
  | uncover
  | harvest
  | introduce
  | delivery
deriving DecidableEq

/-- Task status values. -/
inductive TaskStatus
  | pending
  | inProgress
  | completed
  | skipped
deriving DecidableEq

/-- Order status values. -/
inductive OrderStatus
  | pending
  | confirmed
  | completed
  | cancelled
deriving DecidableEq

/-- Order `dateType` field: whether `targetDate` anchors the harvest day
or the sow/start day. -/
inductive DateType
  | harvest
  | start
deriving DecidableEq

/-- Recurrence frequency of a recurring order request. -/
inductive Frequency
  | weekly
  | biweekly
  | monthly
  | unknown
deriving DecidableEq

/-- A crop row as read by the v1 order controller
(fields of the `Crop` model used by `generateTasksFromOrder`). -/
structure Crop where
  id : Nat
  category : CropCategory
  growthDays : Int
  blackoutDays : Int
  soakTime : Int
  yieldPerTray : ℚ
  soakRate : ℚ
  yieldPerBlock : ℚ
deriving DecidableEq

/-- An order line item (`{cropId, quantity, price}` in the request body). -/
structure OrderItem where
  cropId : Nat
  quantity : ℚ
  price : ℚ
deriving DecidableEq

/-- Crop lookup, embedding `Crop.findByPk(item.cropId)`. -/
def findCrop (crops : List Crop) (cid : Nat) : Option Crop :=
  crops.find? (fun c => c.id = cid)

/-- A customer row (only the fields the order controller reads). -/
structure Customer where
  id : Nat
deriving DecidableEq

/-- Customer lookup, embedding `Customer.findByPk(customerId)`. -/
def findCustomer (customers : List Customer) (cid : Nat) : Option Customer :=
  customers.find? (fun c => c.id = cid)

/-- A persisted task row (id, generated columns, and the status fields
managed by the task controller). -/
structure TaskRec where
  id : Nat
  ttype : TaskType
  date : Int
  cropId : Option Nat
  orderId : Option Nat
  status : TaskStatus
  completedAt : Option Int
  completedBy : Option Nat
deriving DecidableEq

/-- A persisted production-batch row. -/
structure BatchRec where
  id : Nat
  cropId : Nat
  orderId : Nat
  startDate : Int
  harvestDate : Int
  quantity : ℚ
deriving DecidableEq

/-- Database state touched by order update/delete: the task and batch
tables, with fresh-id counters standing for the autoincrement keys. -/
structure DB where
  tasks : List TaskRec
  batches : List BatchRec
  nextTaskId : Nat
  nextBatchId : Nat
deriving DecidableEq

namespace V1

/-- An order record as persisted by the v1 controller (`Order.create`). -/
structure OrderRec where
  id : Nat
  customerId : Nat
  dateType : DateType
  targetDate : Int
  deliveryDate : Int
  deliveryOffset : Int
  items : List OrderItem
  total : ℚ
  status : OrderStatus
deriving DecidableEq

/-- A task as built by `generateTasksFromOrder` before ids are assigned
(the `type`, `date`, `cropId`, `orderId` columns of the pushed objects). -/
structure TaskSpec where
  ttype : TaskType
  date : Int
  cropId : Option Nat
  orderId : Nat
deriving DecidableEq

/-- A production batch as built by `Batch.create` inside
`generateTasksFromOrder`, before ids are assigned. -/
structure BatchSpec where
  cropId : Nat
  orderId : Nat
  startDate : Int
  harvestDate : Int
  quantity : ℚ
deriving DecidableEq

/-- Tasks generated for one order item, embedding the body of the
`for (const item of order.items)` loop of `generateTasksFromOrder`:
a missing crop is skipped (`if (!crop) continue`), microgreens emit
soak?/plant/uncover/harvest, mushrooms emit introduce/harvest, any other
category emits nothing. -/
def itemTasks (crops : List Crop) (o : OrderRec) (item : OrderItem) :
    List TaskSpec :=
  match findCrop crops item.cropId with
  | none => []
  | some crop =>
    let harvestDate := o.deliveryDate - o.deliveryOffset
    match crop.category with
    | .microgreens =>
      let growStartDate := harvestDate - (crop.growthDays - crop.blackoutDays)
      let blackoutStartDate := harvestDate - crop.growthDays
      (if crop.soakTime > 0 then
        [{ ttype := .soak, date := blackoutStartDate - 1,
           cropId := some crop.id, orderId := o.id }]
      else []) ++
      [{ ttype := .plant, date := blackoutStartDate,
         cropId := some crop.id, orderId := o.id },
       { ttype := .uncover, date := growStartDate,
         cropId := some crop.id, orderId := o.id },
       { ttype := .harvest, date := harvestDate,
         cropId := some crop.id, orderId := o.id }]
    | .mushrooms =>
      let introDate := harvestDate - crop.growthDays
      [{ ttype := .introduce, date := introDate,
         cropId := some crop.id, orderId := o.id },
       { ttype := .harvest, date := harvestDate,
         cropId := some crop.id, orderId := o.id }]
    | .otherCrop => []

/-- The batch created for one order item (`Batch.create` runs for every
item whose crop resolves, regardless of category). -/
def itemBatch (crops : List Crop) (o : OrderRec) (item : OrderItem) :
    Option BatchSpec :=
  match findCrop crops item.cropId with
  | none => none
  | some crop =>
    some { cropId := crop.id, orderId := o.id,
           startDate := o.deliveryDate - crop.growthDays,
           harvestDate := o.deliveryDate - o.deliveryOffset,
           quantity := item.quantity }

/-- Per-item tasks accumulated over the item list, in loop order. -/
def orderItemTasks (crops : List Crop) (o : OrderRec) :
    List OrderItem → List TaskSpec
  | [] => []
  | it :: rest => itemTasks crops o it ++ orderItemTasks crops o rest

/-- Batches accumulated over the item list, in loop order. -/
def orderItemBatches (crops : List Crop) (o : OrderRec) :
    List OrderItem → List BatchSpec
  | [] => []
  | it :: rest =>
    match itemBatch crops o it with
    | none => orderItemBatches crops o rest
    | some b => b :: orderItemBatches crops o rest

/-- The single delivery task appended after the item loop, dated at the
order's delivery date. -/
def deliveryTask (o : OrderRec) : TaskSpec :=
  { ttype := .delivery, date := o.deliveryDate, cropId := none,
    orderId := o.id }

/-- Embedding of `generateTasksFromOrder(order, userId)`: per-item tasks
followed by the single delivery task. -/
def generateTasksFromOrder (crops : List Crop) (o : OrderRec) :
    List TaskSpec :=
  orderItemTasks crops o o.items ++ [deliveryTask o]

/-- The `total` accumulation of `createOrder`:
`total += (item.quantity || 0) * (item.price || 0)`. -/
def orderTotal (items : List OrderItem) : ℚ :=
  items.foldl (fun t it => t + it.quantity * it.price) 0

/-- The `maxGrowth` accumulation of `createOrder` for `dateType = 'start'`:
maximum `growthDays` over items whose crop resolves, starting from 0. -/
def maxGrowthOf (crops : List Crop) (items : List OrderItem) : Int :=
  items.foldl
    (fun m it =>
      match findCrop crops it.cropId with
      | some c => if c.growthDays > m then c.growthDays else m
      | none => m) 0

/-- Delivery-date computation of `createOrder`: harvest mode subtracts the
offset from the target date; start mode first adds the longest growth
cycle. -/
def computeDeliveryDate (crops : List Crop) (dt : DateType)
    (targetDate deliveryOffset : Int) (items : List OrderItem) : Int :=
  match dt with
  | .start => (targetDate + maxGrowthOf crops items) - deliveryOffset
  | .harvest => targetDate - deliveryOffset

/-- Delivery dates visited by the recurring-order `while` loop: starting
at `cur`, stepping by `step` days while `cur ≤ endDate`; a step of 0 models
the `break` taken on an unrecognised frequency (one order, then stop). -/
def occurrenceDatesAux (step : Nat) (cur endDate : Int) : List Int :=
  if cur ≤ endDate then
    if step = 0 then [cur]
    else cur :: occurrenceDatesAux step (cur + step) endDate
  else []
termination_by (endDate + 1 - cur).toNat
decreasing_by
  simp_wf
  omega

/-- Delivery dates of all orders created by one `createOrder` call. -/
def occurrenceDates (isRecurring : Bool) (frequency : Frequency)
    (recurringEndDate : Option Int) (deliveryDate : Int) : List Int :=
  match isRecurring, recurringEndDate with
  | true, some e =>
    match frequency with
    | .weekly => occurrenceDatesAux 7 deliveryDate e
    | .biweekly => occurrenceDatesAux 14 deliveryDate e
    | .monthly => occurrenceDatesAux 30 deliveryDate e
    | .unknown => occurrenceDatesAux 0 deliveryDate e
  | _, _ => [deliveryDate]

/-- Request body of `POST /orders` (the fields `createOrder` reads). -/
structure CreateOrderReq where
  customerId : Nat
  dateType : DateType
  targetDate : Int
  deliveryOffset : Int
  items : List OrderItem
  isRecurring : Bool
  frequency : Frequency
  recurringEndDate : Option Int
deriving DecidableEq

/-- Embedding of the v1 `createOrder` controller: `none` models the
400 response for an unknown customer; otherwise one order per occurrence
date is created, each with its generated tasks and batches. -/
def createOrder (crops : List Crop) (customers : List Customer)
    (req : CreateOrderReq) :
    Option (List (OrderRec × List BatchSpec × List TaskSpec)) :=
  match findCustomer customers req.customerId with
  | none => none
  | some _ =>
    let deliveryDate := computeDeliveryDate crops req.dateType
      req.targetDate req.deliveryOffset req.items
    let total := orderTotal req.items
    let occs := occurrenceDates req.isRecurring req.frequency
      req.recurringEndDate deliveryDate
    some (occs.map (fun d =>
      let o : OrderRec :=
        { id := 0, customerId := req.customerId, dateType := req.dateType,
          targetDate := req.targetDate, deliveryDate := d,
          deliveryOffset := req.deliveryOffset, items := req.items,
          total := total, status := .pending }
      (o, orderItemBatches crops o o.items, generateTasksFromOrder crops o)))

/-- A freshly inserted task row for a generated task spec
(`status: 'pending'`, completion fields unset). -/
def instTask (i : Nat) (s : TaskSpec) : TaskRec :=
  { id := i, ttype := s.ttype, date := s.date, cropId := s.cropId,
    orderId := some s.orderId, status := .pending,
    completedAt := none, completedBy := none }

/-- Insert generated task specs with consecutive fresh ids
(`Task.bulkCreate(tasks)`). -/
def instTasks (i : Nat) : List TaskSpec → List TaskRec
  | [] => []
  | s :: rest => instTask i s :: instTasks (i + 1) rest

/-- A freshly inserted batch row for a generated batch spec. -/
def instBatch (i : Nat) (s : BatchSpec) : BatchRec :=
  { id := i, cropId := s.cropId, orderId := s.orderId,
    startDate := s.startDate, harvestDate := s.harvestDate,
    quantity := s.quantity }

/-- Insert generated batch specs with consecutive fresh ids. -/
def instBatches (i : Nat) : List BatchSpec → List BatchRec
  | [] => []
  | s :: rest => instBatch i s :: instBatches (i + 1) rest

/-- Persist the batches and tasks `generateTasksFromOrder` creates for an
order into the database state. -/
def persistGenerated (db : DB) (crops : List Crop) (o : OrderRec) : DB :=
  let bs := orderItemBatches crops o o.items
  let ts := generateTasksFromOrder crops o
  { tasks := db.tasks ++ instTasks db.nextTaskId ts,
    batches := db.batches ++ instBatches db.nextBatchId bs,
    nextTaskId := db.nextTaskId + ts.length,
    nextBatchId := db.nextBatchId + bs.length }

/-- Patch body of `PUT /orders/:id` (fields `updateOrder` reads; an absent
field leaves the order value unchanged, as the `if (...)` guards do). -/
structure OrderPatch where
  customerId : Option Nat
  dateType : Option DateType
  targetDate : Option Int
  deliveryOffset : Option Int
  items : Option (List OrderItem)
  status : Option OrderStatus
deriving DecidableEq

/-- The `if (customerId)` update of `updateOrder`: the customer changes
only when the supplied id resolves. -/
def patchCustomer (customers : List Customer) (o : OrderRec)
    (pc : Option Nat) : OrderRec :=
  match pc with
  | none => o
  | some cid =>
    match findCustomer customers cid with
    | some _ => { o with customerId := cid }
    | none => o

/-- The `if (dateType)` update of `updateOrder`. -/
def patchDateType (o : OrderRec) (pd : Option DateType) : OrderRec :=
  match pd with
  | none => o
  | some dt => { o with dateType := dt }

/-- The `if (targetDate)` update of `updateOrder`. -/
def patchTargetDate (o : OrderRec) (pt : Option Int) : OrderRec :=
  match pt with
  | none => o
  | some td => { o with targetDate := td }

/-- The `if (deliveryOffset !== undefined)` update of `updateOrder`. -/
def patchOffset (o : OrderRec) (po : Option Int) : OrderRec :=
  match po with
  | none => o
  | some off => { o with deliveryOffset := off }

/-- The `if (status)` update of `updateOrder`. -/
def patchStatus (o : OrderRec) (ps : Option OrderStatus) : OrderRec :=
  match ps with
  | none => o
  | some st => { o with status := st }

/-- The `if (items)` block of `updateOrder`: new item list, recomputed
total, and recomputed delivery date from the already-updated scalar
fields. -/
def patchItems (crops : List Crop) (o : OrderRec)
    (pi : Option (List OrderItem)) : OrderRec :=
  match pi with
  | none => o
  | some newItems =>
    { o with
      items := newItems
      total := orderTotal newItems
      deliveryDate := computeDeliveryDate crops o.dateType o.targetDate
        o.deliveryOffset newItems }

/-- Field updates of `updateOrder`, in source order: scalar fields
first, then, when items are supplied, the item list, the total, and the
recomputed delivery date. -/
def applyPatch (crops : List Crop) (customers : List Customer)
    (o : OrderRec) (p : OrderPatch) : OrderRec :=
  patchItems crops
    (patchStatus
      (patchOffset
        (patchTargetDate
          (patchDateType (patchCustomer customers o p.customerId)
            p.dateType)
          p.targetDate)
        p.deliveryOffset)
      p.status)
    p.items

/-- Embedding of the v1 `updateOrder` controller: existing tasks and
batches of the order are deleted, the patch is applied, and — unless the
updated order is cancelled — tasks and batches are regenerated. -/
def updateOrder (db : DB) (crops : List Crop) (customers : List Customer)
    (o : OrderRec) (p : OrderPatch) : DB × OrderRec :=
  let db1 : DB :=
    { db with
      tasks := db.tasks.filter (fun t => t.orderId ≠ some o.id),
      batches := db.batches.filter (fun b => b.orderId ≠ o.id) }
  let o1 := applyPatch crops customers o p
  if o1.status = .cancelled then (db1, o1)
  else (persistGenerated db1 crops o1, o1)

end V1

namespace TaskCtl

/-- Embedding of the single-task `updateTask` controller body for the
status field: completion stamps are set on `'completed'` and cleared on
any other provided status; a request without a status leaves the task
unchanged. -/
def updateTask (t : TaskRec) (status : Option TaskStatus) (now : Int)
    (uid : Nat) : TaskRec :=
  match status with
  | none => t
  | some s =>
    if s = .completed then
      { t with
        status := s
        completedAt := some now
        completedBy := some uid }
    else
      { t with status := s, completedAt := none, completedBy := none }

/-- The update record built by `bulkUpdateTasks`: always the status, plus
the completion stamps only when the status is `'completed'`. -/
def bulkApply (t : TaskRec) (s : TaskStatus) (now : Int) (uid : Nat) :
    TaskRec :=
  if s = .completed then
    { t with status := s, completedAt := some now, completedBy := some uid }
  else
    { t with status := s }

/-- Embedding of `bulkUpdateTasks`: every task whose id is listed gets the
update record applied; others are untouched. -/
def bulkUpdateTasks (tasks : List TaskRec) (taskIds : List Nat)
    (s : TaskStatus) (now : Int) (uid : Nat) : List TaskRec :=
  tasks.map (fun t => if t.id ∈ taskIds then bulkApply t s now uid else t)

end TaskCtl

/- ## v3 Order Service (`orderService.js`) -/

/-- A product row (`Product.findByPk`), carrying the catalog base price. -/
structure Product where
  id : Nat
  basePrice : ℚ
deriving DecidableEq

/-- Product lookup. -/
def findProduct (products : List Product) (pid : Nat) : Option Product :=
  products.find? (fun p => p.id = pid)

/-- JavaScript `a || b` on an optional rational: an absent or zero (falsy)
value falls back to the default. -/
def jsOrRat (o : Option ℚ) (d : ℚ) : ℚ :=
  match o with
  | none => d
  | some q => if q = 0 then d else q

/-- JavaScript `a || b` on an optional integer, with 0 falsy. -/
def jsOrInt (o : Option Int) (d : Int) : Int :=
  match o with
  | none => d
  | some n => if n = 0 then d else n

namespace Svc

/-- A requested order line (`{productId, quantity, unitPrice?}`). -/
structure ItemReq where
  productId : Nat
  quantity : ℚ
  unitPrice : Option ℚ
deriving DecidableEq

/-- A persisted `OrderItem` row: its `total` column is fixed at creation
as `quantity * unitPrice`. -/
structure ItemRec where
  productId : Nat
  quantity : ℚ
  unitPrice : ℚ
  total : ℚ
deriving DecidableEq

/-- An order as the service persists it (the money columns). -/
structure SvcOrder where
  items : List ItemRec
  discount : ℚ
  tax : ℚ
  subtotal : ℚ
  total : ℚ
deriving DecidableEq

/-- Item creation in `createOrder`/`updateOrder`:
`unitPrice = item.unitPrice || product.basePrice`,
`total = quantity * unitPrice`; a missing product is an error
(`throw new Error(...)`, rolling back the transaction). -/
def mkItems (products : List Product) : List ItemReq →
    Option (List ItemRec)
  | [] => some []
  | it :: rest =>
    match findProduct products it.productId with
    | none => none
    | some p =>
      let unitPrice := jsOrRat it.unitPrice p.basePrice
      match mkItems products rest with
      | none => none
      | some tl =>
        some ({ productId := it.productId, quantity := it.quantity,
                unitPrice := unitPrice,
                total := it.quantity * unitPrice } :: tl)

/-- Embedding of `recalculateTotals`: the subtotal is the sum of the item
`total` columns and the order total is `subtotal - discount + tax`. -/
def recalculateTotals (o : SvcOrder) : SvcOrder :=
  let subtotal := o.items.foldl (fun s it => s + it.total) 0
  { o with subtotal := subtotal, total := subtotal - o.discount + o.tax }

/-- Embedding of `OrderService.createOrder`: items are created (all or
nothing — an unknown product aborts the transaction), then
`recalculateTotals` runs. -/
def createOrder (products : List Product) (items : List ItemReq)
    (discount tax : ℚ) : Option SvcOrder :=
  match mkItems products items with
  | none => none
  | some recs =>
    some (recalculateTotals
      { items := recs, discount := discount, tax := tax,
        subtotal := 0, total := 0 })

/-- Embedding of `OrderService.updateOrder` when the patch carries items:
existing items are deleted, new ones created, and totals recalculated. -/
def updateOrderItems (products : List Product) (o : SvcOrder)
    (items : List ItemReq) : Option SvcOrder :=
  match mkItems products items with
  | none => none
  | some recs => some (recalculateTotals { o with items := recs })

end Svc

/- ## Standing-order generation (`standingOrderService.js`) -/

namespace SOGen

/-- A standing-order template item (`{productId, quantity}`). -/
structure SOItem where
  productId : Nat
  quantity : ℚ
deriving DecidableEq

/-- A standing-order template row (the columns the generator reads). -/
structure StandingOrder where
  id : Nat
  customerId : Nat
  isActive : Bool
  autoGenerate : Bool
  isPaused : Bool
  startDate : Int
  endDate : Option Int
  deliveryDays : List Nat
  generateDaysAhead : Int
  items : List SOItem
deriving DecidableEq

/-- An order as created by the generator via `orderService.createOrder`
(the columns the idempotency check reads, plus the priced items). -/
structure GenOrder where
  standingOrderId : Nat
  deliveryDate : Int
  items : List Svc.ItemReq
deriving DecidableEq

/-- Selection predicate for a due template, combining the `findAll` filter
(`isActive && autoGenerate && !isPaused && startDate <= targetDate &&
(endDate IS NULL || endDate >= targetDate)`) and the in-loop weekday test
`so.deliveryDays.includes(dayOfWeek)`. -/
def dueFor (d : Int) (so : StandingOrder) : Bool :=
  so.isActive && so.autoGenerate && !so.isPaused &&
  decide (so.startDate ≤ d) &&
  (match so.endDate with
   | none => true
   | some e => decide (d ≤ e)) &&
  decide (weekdayOf d ∈ so.deliveryDays)

/-- The existence check of the generator loop: it looks for an order of
this template whose `deliveryDate` equals the generation target date
`targetDate` itself. -/
def existsOrderFor (orders : List GenOrder) (soId : Nat) (d : Int) :
    Bool :=
  orders.any (fun o =>
    decide (o.standingOrderId = soId) && decide (o.deliveryDate = d))

/-- The order built for a due template: delivered
`generateDaysAhead` days after the target date, items priced from the
current product base price. -/
def orderFromTemplate (products : List Product) (so : StandingOrder)
    (d : Int) : GenOrder :=
  { standingOrderId := so.id,
    deliveryDate := d + so.generateDaysAhead,
    items := so.items.map (fun it =>
      { productId := it.productId, quantity := it.quantity,
        unitPrice := (findProduct products it.productId).map
          (fun p => p.basePrice) }) }

/-- Embedding of the loop body of `generateOrdersFromStandingOrders` over
the template list: returns the new order table and the list of orders
generated by this run. -/
def generateLoop (products : List Product) (d : Int)
    (orders : List GenOrder) :
    List StandingOrder → List GenOrder × List GenOrder
  | [] => (orders, [])
  | so :: rest =>
    if dueFor d so then
      if existsOrderFor orders so.id d then
        generateLoop products d orders rest
      else
        let o := orderFromTemplate products so d
        let (final, gen) := generateLoop products d (orders ++ [o]) rest
        (final, o :: gen)
    else
      generateLoop products d orders rest

/-- Embedding of `generateOrdersFromStandingOrders(accountId, forDate)`:
one pass over the standing orders for the target date. -/
def generateRun (products : List Product) (sos : List StandingOrder)
    (d : Int) (orders : List GenOrder) : List GenOrder × List GenOrder :=
  generateLoop products d orders sos

end SOGen

/- ## Sowing planner (`planningService.js`) -/

namespace Plan

/-- A crop-type row (`CropType` model), with the growth and yield columns
the planner reads; absent values model SQL NULLs. -/
structure CropType where
  id : Nat
  growthDays : Option Int
  blackoutDays : Option Int
  expectedYield : Option ℚ
deriving DecidableEq

/-- An order item joined through `Product` to its crop type; `none`
models a missing product or crop-type link, which the planner skips. -/
structure PlanItem where
  quantity : ℚ
  cropType : Option CropType
deriving DecidableEq

/-- An order as the planner queries it. -/
structure PlanOrder where
  id : Nat
  deliveryDate : Int
  status : OrderStatus
  items : List PlanItem
deriving DecidableEq

/-- A production-batch row as the planner counts it. -/
structure PBatch where
  cropTypeId : Nat
  plannedSowDate : Int
  terminal : Bool
deriving DecidableEq

/-- One aggregated demand group, keyed by `(cropTypeId, deliveryDate)`. -/
structure Demand where
  cropType : CropType
  deliveryDate : Int
  totalQuantity : ℚ
deriving DecidableEq

/-- Add one item's quantity into the demand map, preserving first-insert
order as a JavaScript `Map` does. -/
def addDemand (ct : CropType) (dd : Int) (q : ℚ) :
    List Demand → List Demand
  | [] => [{ cropType := ct, deliveryDate := dd, totalQuantity := q }]
  | g :: rest =>
    if g.cropType.id = ct.id ∧ g.deliveryDate = dd then
      { g with totalQuantity := g.totalQuantity + q } :: rest
    else
      g :: addDemand ct dd q rest

/-- Demand aggregation over one order's items. -/
def addOrderItems (dd : Int) : List PlanItem → List Demand → List Demand
  | [], groups => groups
  | it :: rest, groups =>
    match it.cropType with
    | none => addOrderItems dd rest groups
    | some ct => addOrderItems dd rest (addDemand ct dd it.quantity groups)

/-- The planner's order filter: delivery date within `[startDate, endDate]`
and status not cancelled or delivered (`completed` plays the delivered
role in the embedded status enum). -/
def inScope (startDate endDate : Int) (o : PlanOrder) : Bool :=
  decide (startDate ≤ o.deliveryDate) && decide (o.deliveryDate ≤ endDate) &&
  !(decide (o.status = OrderStatus.cancelled)) &&
  !(decide (o.status = OrderStatus.completed))

/-- Demand groups of all in-scope orders, in first-encounter order. -/
def demandGroups (orders : List PlanOrder) (startDate endDate : Int) :
    List Demand :=
  (orders.filter (inScope startDate endDate)).foldl
    (fun groups o => addOrderItems o.deliveryDate o.items groups) []

/-- A sowing-plan entry (the computed fields of the pushed object). -/
structure PlanEntry where
  cropTypeId : Nat
  sowDate : Int
  harvestDate : Int
  demandQuantity : ℚ
  requiredQuantity : ℚ
  yieldPerUnit : ℚ
  unitsNeeded : Int
  existingBatches : Int
  additionalUnitsNeeded : Int
deriving DecidableEq

/-- Count of existing non-terminal batches for `(cropTypeId, sowDate)`. -/
def countExisting (batches : List PBatch) (ctId : Nat) (sowDate : Int) :
    Nat :=
  (batches.filter (fun b =>
    decide (b.cropTypeId = ctId) && decide (b.plannedSowDate = sowDate) &&
    !b.terminal)).length

/-- Embedding of the per-group body of `generateSowingPlan`:
`growDays = (blackoutDays || 0) + (growthDays || 7)`,
`sowDate = deliveryDate - growDays`, optional waste buffer,
`yieldPerUnit = expectedYield || 8`,
`unitsNeeded = ceil(requiredQuantity / yieldPerUnit)`, netting against
existing batches; the reported `requiredQuantity` is rounded to two
decimals. -/
def mkPlanEntry (batches : List PBatch) (wasteBuffer : ℚ)
    (includeBuffer : Bool) (dem : Demand) : PlanEntry :=
  let ct := dem.cropType
  let growDays := jsOrInt ct.blackoutDays 0 + jsOrInt ct.growthDays 7
  let sowDate := dem.deliveryDate - growDays
  let requiredQuantity :=
    if includeBuffer then dem.totalQuantity * (1 + wasteBuffer)
    else dem.totalQuantity
  let yieldPerUnit := jsOrRat ct.expectedYield 8
  let unitsNeeded := jsCeil (requiredQuantity / yieldPerUnit)
  let existingBatches := (countExisting batches ct.id sowDate : Int)
  let additionalUnitsNeeded := max 0 (unitsNeeded - existingBatches)
  { cropTypeId := ct.id, sowDate := sowDate,
    harvestDate := dem.deliveryDate, demandQuantity := dem.totalQuantity,
    requiredQuantity := (jsRound (requiredQuantity * 100) : ℚ) / 100,
    yieldPerUnit := yieldPerUnit, unitsNeeded := unitsNeeded,
    existingBatches := existingBatches,
    additionalUnitsNeeded := additionalUnitsNeeded }

/-- Comparison used for the final `sowingPlan.sort`: ascending sow date. -/
def bySowDate (a b : PlanEntry) : Bool := decide (a.sowDate ≤ b.sowDate)

/-- Embedding of `generateSowingPlan`: aggregate in-scope demand, compute
one entry per group, and sort by sow date ascending. -/
def generateSowingPlan (orders : List PlanOrder) (batches : List PBatch)
    (startDate endDate : Int) (wasteBuffer : ℚ) (includeBuffer : Bool) :
    List PlanEntry :=
  ((demandGroups orders startDate endDate).map
    (mkPlanEntry batches wasteBuffer includeBuffer)).mergeSort bySowDate

end Plan

namespace V1

/-- Expected number of generated tasks for one order item: none for an
unresolvable crop, soak?/plant/uncover/harvest for microgreens,
introduce/harvest for mushrooms, none otherwise. -/
def expectedTasksPerItem (crops : List Crop) (it : OrderItem) : Nat :=
  match findCrop crops it.cropId with
  | none => 0
  | some c =>
    match c.category with
    | .microgreens => if c.soakTime > 0 then 4 else 3
    | .mushrooms => 2
    | .otherCrop => 0

/-- Expected number of tasks linked to an order with the given item list:
the per-item tasks plus the one delivery task. -/
def expectedTaskCount (crops : List Crop) (items : List OrderItem) : Nat :=
  (items.map (expectedTasksPerItem crops)).sum + 1

/-- Expected number of batches: one per item whose crop resolves. -/
def expectedBatchCount (crops : List Crop) (items : List OrderItem) :
    Nat :=
  (items.filter (fun it => (findCrop crops it.cropId).isSome)).length

/-- Growth-day values of the crops the items resolve to, in item order. -/
def cropGrowthList (crops : List Crop) (items : List OrderItem) :
    List Int :=
  items.filterMap (fun it => (findCrop crops it.cropId).map
    (fun c => c.growthDays))

theorem itemTasks_length (crops : List Crop) (o : OrderRec)
    (it : OrderItem) :
    (itemTasks crops o it).length = expectedTasksPerItem crops it := by
  unfold itemTasks expectedTasksPerItem
  cases hf : findCrop crops it.cropId with
  | none => rfl
  | some c =>
    cases hc : c.category
    · simp only [hc]
      by_cases hs : c.soakTime > 0 <;> simp [hs]
    · simp [hc]
    · simp [hc]

theorem orderItemTasks_length (crops : List Crop) (o : OrderRec)
    (items : List OrderItem) :
    (orderItemTasks crops o items).length =
      (items.map (expectedTasksPerItem crops)).sum := by
  induction items with
  | nil => rfl
  | cons it rest ih =>
    simp [orderItemTasks, itemTasks_length, ih]

theorem generateTasksFromOrder_length (crops : List Crop)
    (o : OrderRec) :
    (generateTasksFromOrder crops o).length =
      expectedTaskCount crops o.items := by
  simp [generateTasksFromOrder, expectedTaskCount, orderItemTasks_length]

theorem itemBatch_isSome (crops : List Crop) (o : OrderRec)
    (it : OrderItem) :
    (itemBatch crops o it).isSome = (findCrop crops it.cropId).isSome := by
  unfold itemBatch
  cases findCrop crops it.cropId <;> rfl

theorem orderItemBatches_length (crops : List Crop) (o : OrderRec)
    (items : List OrderItem) :
    (orderItemBatches crops o items).length =
      expectedBatchCount crops items := by
  induction items with
  | nil => rfl
  | cons it rest ih =>
    unfold orderItemBatches expectedBatchCount
    cases hf : findCrop crops it.cropId with
    | none =>
      simp only [itemBatch, hf]
      simpa [expectedBatchCount, hf] using ih
    | some c =>
      simp only [itemBatch, hf]
      simpa [expectedBatchCount, hf] using ih

theorem itemTasks_orderId (crops : List Crop) (o : OrderRec)
    (it : OrderItem) :
    ∀ s ∈ itemTasks crops o it, s.orderId = o.id := by
  intro s hs
  unfold itemTasks at hs
  cases hf : findCrop crops it.cropId with
  | none => simp [hf] at hs
  | some c =>
    simp only [hf] at hs
    cases hc : c.category
    · simp only [hc] at hs
      by_cases hsoak : c.soakTime > 0
      · simp [hsoak] at hs
        rcases hs with h | h | h | h <;> simp [h]
      · simp [hsoak] at hs
        rcases hs with h | h | h <;> simp [h]
    · simp only [hc] at hs
      rcases List.mem_pair.mp hs with h | h <;> simp [h]
    · simp [hc] at hs

theorem orderItemTasks_orderId (crops : List Crop) (o : OrderRec)
    (items : List OrderItem) :
    ∀ s ∈ orderItemTasks crops o items, s.orderId = o.id := by
  intro s hs
  induction items with
  | nil => simp [orderItemTasks] at hs
  | cons it rest ih =>
    simp only [orderItemTasks, List.mem_append] at hs
    rcases hs with h | h
    · exact itemTasks_orderId crops o it s h
    · exact ih h

theorem generateTasksFromOrder_orderId (crops : List Crop)
    (o : OrderRec) :
    ∀ s ∈ generateTasksFromOrder crops o, s.orderId = o.id := by
  intro s hs
  simp only [generateTasksFromOrder, List.mem_append] at hs
  rcases hs with h | h
  · exact orderItemTasks_orderId crops o o.items s h
  · simp at h; simp [h, deliveryTask]

theorem itemBatch_orderId (crops : List Crop) (o : OrderRec)
    (it : OrderItem) (b : BatchSpec) (hb : itemBatch crops o it = some b) :
    b.orderId = o.id := by
  unfold itemBatch at hb
  cases hf : findCrop crops it.cropId with
  | none => simp [hf] at hb
  | some c => simp only [hf] at hb; simp at hb; simp [← hb]

theorem orderItemBatches_orderId (crops : List Crop) (o : OrderRec)
    (items : List OrderItem) :
    ∀ b ∈ orderItemBatches crops o items, b.orderId = o.id := by
  intro b hb
  induction items with
  | nil => simp [orderItemBatches] at hb
  | cons it rest ih =>
    unfold orderItemBatches at hb
    cases hf : itemBatch crops o it with
    | none => rw [hf] at hb; exact ih hb
    | some b0 =>
      rw [hf] at hb
      rcases List.mem_cons.mp hb with h | h
      · rw [h]; exact itemBatch_orderId crops o it b0 hf
      · exact ih h

/-- The persisted order built by a non-recurring `createOrder` call. -/
def orderOf (crops : List Crop) (req : CreateOrderReq) : OrderRec :=
  { id := 0, customerId := req.customerId, dateType := req.dateType,
    targetDate := req.targetDate,
    deliveryDate := computeDeliveryDate crops req.dateType req.targetDate
      req.deliveryOffset req.items,
    deliveryOffset := req.deliveryOffset, items := req.items,
    total := orderTotal req.items, status := .pending }

theorem createOrder_nonrecurring (crops : List Crop)
    (customers : List Customer) (req : CreateOrderReq) (cust : Customer)
    (hc : findCustomer customers req.customerId = some cust)
    (hrec : req.isRecurring = false) :
    createOrder crops customers req =
      some [(orderOf crops req,
             orderItemBatches crops (orderOf crops req) req.items,
             generateTasksFromOrder crops (orderOf crops req))] := by
  unfold createOrder
  rw [hc]
  simp [occurrenceDates, hrec, orderOf]

theorem harvest_task_date (crops : List Crop) (o : OrderRec)
    (items : List OrderItem) :
    ∀ s ∈ orderItemTasks crops o items, s.ttype = .harvest →
      s.date = o.deliveryDate - o.deliveryOffset := by
  intro s hs hh
  induction items with
  | nil => simp [orderItemTasks] at hs
  | cons it rest ih =>
    simp only [orderItemTasks, List.mem_append] at hs
    rcases hs with h | h
    · unfold itemTasks at h
      cases hf : findCrop crops it.cropId with
      | none => simp [hf] at h
      | some c =>
        simp only [hf] at h
        cases hc : c.category
        · simp only [hc] at h
          by_cases hsoak : c.soakTime > 0
          · simp [hsoak] at h
            rcases h with h | h | h | h <;> subst h <;> simp_all
          · simp [hsoak] at h
            rcases h with h | h | h <;> subst h <;> simp_all
        · simp only [hc] at h
          rcases List.mem_pair.mp h with h | h <;> subst h <;> simp_all
        · simp [hc] at h
    · exact ih h

theorem generate_harvest_task_date (crops : List Crop) (o : OrderRec) :
    ∀ t ∈ generateTasksFromOrder crops o, t.ttype = .harvest →
      t.date = o.deliveryDate - o.deliveryOffset := by
  intro t ht hh
  simp only [generateTasksFromOrder, List.mem_append] at ht
  rcases ht with h | h
  · exact harvest_task_date crops o o.items t h hh
  · simp at h
    rw [h] at hh
    simp [deliveryTask] at hh

end V1

/- ## Concrete scenario inputs used by counterexamples and witnesses -/

/-- A microgreens crop with a soak step
(growth 10, blackout 4, soak 8 hours). -/
def cropA : Crop :=
  { id := 1, category := .microgreens, growthDays := 10,
    blackoutDays := 4, soakTime := 8, yieldPerTray := 8,
    soakRate := 1, yieldPerBlock := 0 }

/-- The same crop without a soak step. -/
def cropB : Crop :=
  { cropA with id := 2, soakTime := 0 }

/-- A known customer with id 1. -/
def custA : Customer := { id := 1 }

/-- An order context whose delivery date and offset place the harvest on
2024-06-20 (offset 0). -/
def orderA : V1.OrderRec :=
  { id := 0, customerId := 1, dateType := .harvest,
    targetDate := daysFromCivil 2024 6 20,
    deliveryDate := daysFromCivil 2024 6 20, deliveryOffset := 0,
    items := [{ cropId := 1, quantity := 5, price := 2 }], total := 10,
    status := .pending }

/-- Claim C4: for a microgreen order item, task expansion emits, in
order, soak (present iff soakTime > 0, dated blackoutStartDate − 1),
plant at blackoutStartDate = harvestDate − growthDays, uncover at
growStartDate = harvestDate − (growthDays − blackoutDays), and harvest
at harvestDate, where harvestDate is the order's delivery date minus the
delivery offset. -/
theorem C4_microgreen_item_task_sequence (crops : List Crop)
    (o : V1.OrderRec) (item : OrderItem) (crop : Crop)
    (hfind : findCrop crops item.cropId = some crop)
    (hcat : crop.category = .microgreens) :
    (V1.itemTasks crops o item).map (fun t => (t.ttype, t.date)) =
      (let harvestDate := o.deliveryDate - o.deliveryOffset
       let blackoutStartDate := harvestDate - crop.growthDays
       let growStartDate :=
         harvestDate - (crop.growthDays - crop.blackoutDays)
       (if crop.soakTime > 0 then
         [(TaskType.soak, blackoutStartDate - 1)]
        else []) ++
       [(TaskType.plant, blackoutStartDate),
        (TaskType.uncover, growStartDate),
        (TaskType.harvest, harvestDate)]) := by
  unfold V1.itemTasks
  simp only [hfind, hcat]
  by_cases hsoak : crop.soakTime > 0 <;> simp [hsoak]

/-- Claim C4 witness: the spec's concrete instance — growthDays 10,
blackoutDays 4, harvest on 2024-06-20 gives blackout start 2024-06-10,
grow start (uncover) 2024-06-14, with the soak task on 2024-06-09. -/
theorem C4_microgreen_item_task_sequence_witness :
    findCrop [cropA] 1 = some cropA ∧ cropA.soakTime > 0 ∧
    (V1.itemTasks [cropA] orderA { cropId := 1, quantity := 5, price := 2 }).map
      (fun t => (t.ttype, t.date)) =
    [(TaskType.soak, daysFromCivil 2024 6 9),
     (TaskType.plant, daysFromCivil 2024 6 10),
     (TaskType.uncover, daysFromCivil 2024 6 14),
     (TaskType.harvest, daysFromCivil 2024 6 20)] := by
  refine ⟨by decide, by decide, ?_⟩
  rw [C4_microgreen_item_task_sequence [cropA] orderA
    { cropId := 1, quantity := 5, price := 2 } cropA (by decide) rfl]
  decide

/-- A harvest-mode, non-recurring order request with delivery offset 1
targeting 2024-06-20, over the no-soak crop. -/
def reqC3 : V1.CreateOrderReq :=
  { customerId := 1, dateType := .harvest,
    targetDate := daysFromCivil 2024 6 20, deliveryOffset := 1,
    items := [{ cropId := 2, quantity := 5, price := 2 }],
    isRecurring := false, frequency := .unknown,
    recurringEndDate := none }

/-- Claim C3 counterexample: with deliveryOffset = 1 the created order's
delivery date is targetDate − 1 (as the claim says), but the generated
harvest task is dated targetDate − 2, not the order's targetDate
2024-06-20: the code anchors the task-generation harvest date at
deliveryDate − deliveryOffset, subtracting the offset a second time. -/
theorem C3_harvest_task_not_on_target_date :
    ((V1.createOrder [cropB] [custA] reqC3).map (fun out =>
      out.map (fun e => (e.1.deliveryDate,
        (e.2.2.filter (fun t =>
          decide (t.ttype = TaskType.harvest))).map (fun t => t.date))))) =
      some [(daysFromCivil 2024 6 19, [daysFromCivil 2024 6 18])] ∧
    daysFromCivil 2024 6 18 ≠ reqC3.targetDate := by
  constructor
  · decide
  · decide

/-- Claim C3 (amended): for a non-recurring harvest-mode order,
deliveryDate = targetDate − deliveryOffset, and every per-item harvest
task is dated deliveryDate − deliveryOffset = targetDate −
2·deliveryOffset (it falls on targetDate exactly when the offset is 0). -/
theorem C3_harvest_mode_dates (crops : List Crop)
    (customers : List Customer) (req : V1.CreateOrderReq)
    (cust : Customer)
    (hc : findCustomer customers req.customerId = some cust)
    (hrec : req.isRecurring = false)
    (hdt : req.dateType = .harvest) :
    ∃ o bs ts, V1.createOrder crops customers req = some [(o, bs, ts)] ∧
      o.targetDate = req.targetDate ∧
      o.deliveryDate = req.targetDate - req.deliveryOffset ∧
      ∀ t ∈ ts, t.ttype = .harvest →
        t.date = req.targetDate - 2 * req.deliveryOffset := by
  refine ⟨V1.orderOf crops req, _, _,
    V1.createOrder_nonrecurring crops customers req cust hc hrec, rfl,
    ?_, ?_⟩
  · simp [V1.orderOf, V1.computeDeliveryDate, hdt]
  · intro t ht hh
    have hd := V1.generate_harvest_task_date crops (V1.orderOf crops req)
      t ht hh
    have : (V1.orderOf crops req).deliveryDate =
        req.targetDate - req.deliveryOffset := by
      simp [V1.orderOf, V1.computeDeliveryDate, hdt]
    rw [hd, this]
    have : (V1.orderOf crops req).deliveryOffset = req.deliveryOffset :=
      rfl
    rw [this]
    ring

/-- Claim C3 witness: the amended statement at the concrete
counterexample request (offset 1, target 2024-06-20). -/
theorem C3_harvest_mode_dates_witness :
    ∃ o bs ts,
      V1.createOrder [cropB] [custA] reqC3 = some [(o, bs, ts)] ∧
      o.targetDate = reqC3.targetDate ∧
      o.deliveryDate = reqC3.targetDate - reqC3.deliveryOffset ∧
      ∀ t ∈ ts, t.ttype = .harvest →
        t.date = reqC3.targetDate - 2 * reqC3.deliveryOffset :=
  C3_harvest_mode_dates [cropB] [custA] reqC3 custA (by decide) rfl rfl

namespace V1

/-- One step of the `maxGrowth` accumulation. -/
def maxGrowthStep (crops : List Crop) (m : Int) (it : OrderItem) : Int :=
  match findCrop crops it.cropId with
  | some c => if c.growthDays > m then c.growthDays else m
  | none => m

theorem maxGrowthOf_eq_foldl (crops : List Crop)
    (items : List OrderItem) :
    maxGrowthOf crops items = items.foldl (maxGrowthStep crops) 0 := rfl

theorem maxGrowthStep_le (crops : List Crop) (m : Int) (it : OrderItem) :
    m ≤ maxGrowthStep crops m it := by
  unfold maxGrowthStep
  cases findCrop crops it.cropId with
  | none => exact le_refl m
  | some c =>
    show m ≤ if c.growthDays > m then c.growthDays else m
    by_cases h : c.growthDays > m
    · rw [if_pos h]; omega
    · rw [if_neg h]

theorem foldl_maxGrowth_le (crops : List Crop) (items : List OrderItem) :
    ∀ m : Int, m ≤ items.foldl (maxGrowthStep crops) m := by
  induction items with
  | nil => intro m; exact le_refl m
  | cons it rest ih =>
    intro m
    calc m ≤ maxGrowthStep crops m it := maxGrowthStep_le crops m it
    _ ≤ rest.foldl (maxGrowthStep crops) (maxGrowthStep crops m it) :=
      ih _

theorem foldl_maxGrowth_ge (crops : List Crop) (items : List OrderItem) :
    ∀ m : Int, ∀ g ∈ cropGrowthList crops items,
      g ≤ items.foldl (maxGrowthStep crops) m := by
  induction items with
  | nil => intro m g hg; simp [cropGrowthList] at hg
  | cons it rest ih =>
    intro m g hg
    unfold cropGrowthList at hg
    rw [List.filterMap_cons] at hg
    cases hf : findCrop crops it.cropId with
    | none =>
      rw [hf] at hg
      exact ih _ g hg
    | some c =>
      rw [hf] at hg
      simp only [Option.map_some'] at hg
      rw [List.foldl_cons]
      rcases List.mem_cons.mp hg with h | h
      · have hle : g ≤ maxGrowthStep crops m it := by
          unfold maxGrowthStep
          rw [h]
          simp only [hf]
          by_cases hgt : c.growthDays > m
          · rw [if_pos hgt]
          · rw [if_neg hgt]; omega
        exact le_trans hle (foldl_maxGrowth_le crops rest _)
      · exact ih _ g h

theorem foldl_maxGrowth_mem (crops : List Crop)
    (items : List OrderItem) :
    ∀ m : Int, items.foldl (maxGrowthStep crops) m = m ∨
      items.foldl (maxGrowthStep crops) m ∈ cropGrowthList crops items := by
  induction items with
  | nil => intro m; exact Or.inl rfl
  | cons it rest ih =>
    intro m
    unfold cropGrowthList
    rw [List.filterMap_cons]
    rw [List.foldl_cons]
    cases hf : findCrop crops it.cropId with
    | none =>
      have hstep : maxGrowthStep crops m it = m := by
        unfold maxGrowthStep; rw [hf]
      rw [hstep]
      rcases ih m with h | h
      · exact Or.inl h
      · exact Or.inr h
    | some c =>
      simp only [Option.map_some']
      rcases ih (maxGrowthStep crops m it) with h | h
      · rw [h]
        unfold maxGrowthStep
        simp only [hf]
        by_cases hgt : c.growthDays > m
        · rw [if_pos hgt]
          exact Or.inr (List.mem_cons_self _ _)
        · rw [if_neg hgt]
          exact Or.inl rfl
      · exact Or.inr (List.mem_cons_of_mem _ h)

theorem cropGrowthList_ne_nil (crops : List Crop)
    (items : List OrderItem) (hne : items ≠ [])
    (hres : ∀ it ∈ items, (findCrop crops it.cropId).isSome) :
    cropGrowthList crops items ≠ [] := by
  cases items with
  | nil => exact absurd rfl hne
  | cons it rest =>
    unfold cropGrowthList
    rw [List.filterMap_cons]
    cases hf : findCrop crops it.cropId with
    | none =>
      have := hres it (List.mem_cons_self _ _)
      rw [hf] at this
      simp at this
    | some c => simp

/-- The code's `maxGrowth` is the maximum of the growth days of the
items' crops: an upper bound, and attained by some item, provided every
item's crop resolves with nonnegative growth days and the item list is
nonempty. -/
theorem maxGrowthOf_is_max (crops : List Crop) (items : List OrderItem)
    (hne : items ≠ [])
    (hres : ∀ it ∈ items, (findCrop crops it.cropId).isSome)
    (hnn : ∀ g ∈ cropGrowthList crops items, 0 ≤ g) :
    maxGrowthOf crops items ∈ cropGrowthList crops items ∧
      ∀ g ∈ cropGrowthList crops items, g ≤ maxGrowthOf crops items := by
  constructor
  · rcases foldl_maxGrowth_mem crops items 0 with h | h
    · rw [maxGrowthOf_eq_foldl, h]
      rcases List.exists_mem_of_ne_nil _
        (cropGrowthList_ne_nil crops items hne hres) with ⟨g, hg⟩
      have h1 : g ≤ items.foldl (maxGrowthStep crops) 0 :=
        foldl_maxGrowth_ge crops items 0 g hg
      rw [h] at h1
      have h2 : 0 ≤ g := hnn g hg
      have : g = 0 := le_antisymm h1 h2
      rw [← this]
      exact hg
    · rw [maxGrowthOf_eq_foldl]
      exact h
  · intro g hg
    rw [maxGrowthOf_eq_foldl]
    exact foldl_maxGrowth_ge crops items 0 g hg

end V1

/-- Claim C5: for a non-recurring start-mode order with a nonempty item
list whose crops all resolve (with nonnegative growth days), the created
order's delivery date is (targetDate + maxGrowthDays) − deliveryOffset,
where maxGrowthDays is the maximum growthDays over the items' crops
(attained by one of them and bounding all of them). -/
theorem C5_start_mode_delivery_date (crops : List Crop)
    (customers : List Customer) (req : V1.CreateOrderReq)
    (cust : Customer)
    (hc : findCustomer customers req.customerId = some cust)
    (hrec : req.isRecurring = false)
    (hdt : req.dateType = .start)
    (hne : req.items ≠ [])
    (hres : ∀ it ∈ req.items, (findCrop crops it.cropId).isSome)
    (hnn : ∀ g ∈ V1.cropGrowthList crops req.items, 0 ≤ g) :
    ∃ o bs ts, V1.createOrder crops customers req = some [(o, bs, ts)] ∧
      o.deliveryDate =
        (req.targetDate + V1.maxGrowthOf crops req.items) -
          req.deliveryOffset ∧
      V1.maxGrowthOf crops req.items ∈
        V1.cropGrowthList crops req.items ∧
      ∀ g ∈ V1.cropGrowthList crops req.items,
        g ≤ V1.maxGrowthOf crops req.items := by
  refine ⟨V1.orderOf crops req, _, _,
    V1.createOrder_nonrecurring crops customers req cust hc hrec, ?_,
    (V1.maxGrowthOf_is_max crops req.items hne hres hnn).1,
    (V1.maxGrowthOf_is_max crops req.items hne hres hnn).2⟩
  simp [V1.orderOf, V1.computeDeliveryDate, hdt]

/-- Crops and request for the spec's start-mode example: growth days 7
and 12, offset 1, target 2024-06-01. -/
def cropG7 : Crop :=
  { cropA with id := 7, growthDays := 7 }

/-- Second crop of the start-mode example, growth days 12. -/
def cropG12 : Crop :=
  { cropA with id := 12, growthDays := 12 }

/-- The start-mode request of the spec's concrete example. -/
def reqC5 : V1.CreateOrderReq :=
  { customerId := 1, dateType := .start,
    targetDate := daysFromCivil 2024 6 1, deliveryOffset := 1,
    items := [{ cropId := 7, quantity := 1, price := 1 },
              { cropId := 12, quantity := 1, price := 1 }],
    isRecurring := false, frequency := .unknown,
    recurringEndDate := none }

/-- Claim C5 witness: growth days 7 and 12, offset 1, target 2024-06-01
give max growth 12, harvest 2024-06-13 and delivery 2024-06-12. -/
theorem C5_start_mode_delivery_date_witness :
    (∃ o bs ts,
      V1.createOrder [cropG7, cropG12] [custA] reqC5 =
        some [(o, bs, ts)] ∧
      o.deliveryDate =
        (reqC5.targetDate + V1.maxGrowthOf [cropG7, cropG12] reqC5.items) -
          reqC5.deliveryOffset ∧
      V1.maxGrowthOf [cropG7, cropG12] reqC5.items ∈
        V1.cropGrowthList [cropG7, cropG12] reqC5.items ∧
      ∀ g ∈ V1.cropGrowthList [cropG7, cropG12] reqC5.items,
        g ≤ V1.maxGrowthOf [cropG7, cropG12] reqC5.items) ∧
    V1.maxGrowthOf [cropG7, cropG12] reqC5.items = 12 ∧
    reqC5.targetDate + 12 = daysFromCivil 2024 6 13 ∧
    (reqC5.targetDate + 12) - 1 = daysFromCivil 2024 6 12 :=
  ⟨C5_start_mode_delivery_date [cropG7, cropG12] [custA] reqC5 custA
    (by decide) rfl rfl (by decide) (by decide) (by decide),
   by decide, by decide, by decide⟩

/-- A request containing an item whose crop id 99 resolves to no crop. -/
def reqC2 : V1.CreateOrderReq :=
  { customerId := 1, dateType := .harvest,
    targetDate := daysFromCivil 2024 6 20, deliveryOffset := 1,
    items := [{ cropId := 99, quantity := 5, price := 2 }],
    isRecurring := false, frequency := .unknown,
    recurringEndDate := none }

/-- Claim C2 counterexample: an order whose only item references a
nonexistent crop is still created successfully — no error is returned,
no batch is created, and the only task is the delivery task, so the
caller sees a success with zero tasks for the bad item instead of a
rolled-back creation. -/
theorem C2_missing_crop_not_rolled_back :
    ((V1.createOrder [cropA] [custA] reqC2).map (fun out =>
      out.map (fun e =>
        (e.2.1.length, (e.2.2).map (fun t => t.ttype))))) =
      some [(0, [TaskType.delivery])] ∧
    (V1.createOrder [cropA] [custA] reqC2).isSome = true := by
  constructor
  · decide
  · decide

/-- Claim C2 (amended): an item whose cropId does not resolve is
silently skipped — it contributes no tasks and no batch — while the
order creation itself still succeeds whenever the customer exists. -/
theorem C2_missing_crop_skipped (crops : List Crop)
    (customers : List Customer) (req : V1.CreateOrderReq)
    (item : OrderItem) (cust : Customer)
    (_hmem : item ∈ req.items)
    (hbad : findCrop crops item.cropId = none)
    (hc : findCustomer customers req.customerId = some cust) :
    (V1.createOrder crops customers req).isSome = true ∧
    (∀ o : V1.OrderRec, V1.itemTasks crops o item = []) ∧
    (∀ o : V1.OrderRec, V1.itemBatch crops o item = none) := by
  refine ⟨?_, ?_, ?_⟩
  · unfold V1.createOrder
    rw [hc]
    rfl
  · intro o
    unfold V1.itemTasks
    rw [hbad]
  · intro o
    unfold V1.itemBatch
    rw [hbad]

/-- Claim C2 witness: the amended statement at the concrete bad-crop
request. -/
theorem C2_missing_crop_skipped_witness :
    (V1.createOrder [cropA] [custA] reqC2).isSome = true ∧
    (∀ o : V1.OrderRec,
      V1.itemTasks [cropA] o { cropId := 99, quantity := 5, price := 2 } =
        []) ∧
    (∀ o : V1.OrderRec,
      V1.itemBatch [cropA] o { cropId := 99, quantity := 5, price := 2 } =
        none) :=
  C2_missing_crop_skipped [cropA] [custA] reqC2
    { cropId := 99, quantity := 5, price := 2 } custA (by decide)
    (by decide) (by decide)

/-- An active standing order due on Mondays, generating one day ahead. -/
def soMon : SOGen.StandingOrder :=
  { id := 1, customerId := 1, isActive := true, autoGenerate := true,
    isPaused := false, startDate := 0, endDate := none,
    deliveryDays := [1], generateDaysAhead := 1, items := [] }

/-- Claim C1: running generation twice for Monday 2024-06-03 over the
template `soMon` creates an order on each run — the second run does not
skip — and afterwards two orders exist for the same
(standingOrderId, deliveryDate) pair (1, 2024-06-04).  The duplicate
arises because the existence check matches orders with
`deliveryDate = forDate`, while created orders carry
`deliveryDate = forDate + generateDaysAhead`. -/
theorem C1_generate_twice_duplicates :
    (SOGen.generateRun [] [soMon] (daysFromCivil 2024 6 3) []).2.length
      = 1 ∧
    (SOGen.generateRun [] [soMon] (daysFromCivil 2024 6 3)
      (SOGen.generateRun [] [soMon] (daysFromCivil 2024 6 3) []).1).2.length
      = 1 ∧
    ((SOGen.generateRun [] [soMon] (daysFromCivil 2024 6 3)
      (SOGen.generateRun [] [soMon] (daysFromCivil 2024 6 3) []).1).1.filter
        (fun o => decide (o.standingOrderId = 1) &&
          decide (o.deliveryDate = daysFromCivil 2024 6 4))).length = 2 := by
  refine ⟨?_, ?_, ?_⟩
  · decide
  · decide
  · decide

/-- A task row currently completed, with both completion stamps set. -/
def taskDone : TaskRec :=
  { id := 1, ttype := .plant, date := 0, cropId := none, orderId := none,
    status := .completed, completedAt := some 5, completedBy := some 1 }

/-- Claim C9 counterexample: bulk-updating the completed task `taskDone`
to `pending` changes the status but leaves both completion stamps set,
so a bulk status update to a non-completed value does not clear them. -/
theorem C9_bulk_noncompleted_keeps_stamps :
    (TaskCtl.bulkUpdateTasks [taskDone] [1] .pending 99 7).map
      (fun t => (t.status, t.completedAt, t.completedBy)) =
      [(TaskStatus.pending, some 5, some 1)] ∧
    (some 5 : Option Int) ≠ none := by
  constructor
  · decide
  · decide

/-- Sum of `f` over a list, as a left fold from an accumulator — the
shape of the `reduce`/`for` accumulations in the source. -/
theorem foldl_add_map {α : Type} (f : α → ℚ) (l : List α) :
    ∀ a : ℚ, l.foldl (fun s x => s + f x) a = a + (l.map f).sum := by
  induction l with
  | nil => intro a; simp
  | cons x rest ih =>
    intro a
    rw [List.foldl_cons, ih (a + f x)]
    simp [add_assoc]

namespace Svc

/-- The plain items total the claim asserts:
Σ quantity × unit price over the order's items. -/
def itemsTotal (items : List ItemRec) : ℚ :=
  (items.map (fun it => it.quantity * it.unitPrice)).sum

theorem mkItems_total_col (products : List Product) :
    ∀ items recs, mkItems products items = some recs →
      ∀ r ∈ recs, r.total = r.quantity * r.unitPrice := by
  intro items
  induction items with
  | nil =>
    intro recs h r hr
    simp [mkItems] at h
    rw [h] at hr
    simp at hr
  | cons it rest ih =>
    intro recs h r hr
    unfold mkItems at h
    cases hp : findProduct products it.productId with
    | none => simp [hp] at h
    | some p =>
      simp only [hp] at h
      cases hm : mkItems products rest with
      | none => simp [hm] at h
      | some tl =>
        simp only [hm] at h
        simp at h
        rw [← h] at hr
        rcases List.mem_cons.mp hr with heq | hmem
        · rw [heq]
        · exact ih tl hm r hmem

theorem sum_total_col (items : List ItemRec)
    (h : ∀ r ∈ items, r.total = r.quantity * r.unitPrice) :
    (items.map (fun it => it.total)).sum = itemsTotal items := by
  unfold itemsTotal
  induction items with
  | nil => simp
  | cons r rest ih =>
    simp only [List.map_cons, List.sum_cons]
    rw [h r (List.mem_cons_self _ _),
      ih (fun x hx => h x (List.mem_cons_of_mem _ hx))]

theorem recalculateTotals_spec (o : SvcOrder)
    (h : ∀ r ∈ o.items, r.total = r.quantity * r.unitPrice) :
    (recalculateTotals o).subtotal = itemsTotal o.items ∧
    (recalculateTotals o).total = itemsTotal o.items - o.discount + o.tax ∧
    (recalculateTotals o).items = o.items ∧
    (recalculateTotals o).discount = o.discount ∧
    (recalculateTotals o).tax = o.tax := by
  unfold recalculateTotals
  rw [foldl_add_map (fun it => it.total) o.items 0, sum_total_col o.items h]
  simp

end Svc

namespace V1

/-- The plain items total of the claim for the v1 controller:
Σ quantity × price over the request items. -/
def itemsPriceTotal (items : List OrderItem) : ℚ :=
  (items.map (fun it => it.quantity * it.price)).sum

theorem orderTotal_eq_sum (items : List OrderItem) :
    orderTotal items = itemsPriceTotal items := by
  unfold orderTotal itemsPriceTotal
  rw [foldl_add_map (fun it => it.quantity * it.price) items 0]
  simp

end V1

/-- Products and request items of the discount counterexample. -/
def prodsC7 : List Product := [{ id := 1, basePrice := 10 }]

/-- One order line of two units at the catalog price. -/
def itemsC7 : List Svc.ItemReq :=
  [{ productId := 1, quantity := 2, unitPrice := none }]

/-- Claim C7 counterexample: an order of 2 units at base price 10 with a
discount of 5 has total 15, while Σ quantity × unit price is 20 — the
service total is `subtotal − discount + tax`, not the plain item sum. -/
theorem C7_total_with_discount_cex :
    ((Svc.createOrder prodsC7 itemsC7 5 0).map (fun o => o.total)) =
      some 15 ∧
    ((Svc.createOrder prodsC7 itemsC7 5 0).map
      (fun o => Svc.itemsTotal o.items)) = some 20 ∧
    (15 : ℚ) ≠ 20 := by
  refine ⟨?_, ?_, by norm_num⟩ <;>
    simp [Svc.createOrder, Svc.mkItems, Svc.recalculateTotals,
      Svc.itemsTotal, prodsC7, itemsC7, findProduct, jsOrRat] <;>
    norm_num

/-- Claim C7 (amended): after `OrderService.createOrder` the subtotal is
Σ quantity × unit price and the total is that sum − discount + tax;
after `updateOrder` with new items the same holds with the order's
stored discount and tax; and in the v1 controller (which has no
discount/tax columns) the created order's total is exactly
Σ quantity × price. -/
theorem C7_totals_recalculated :
    (∀ (products : List Product) (items : List Svc.ItemReq)
        (discount tax : ℚ) (o : Svc.SvcOrder),
      Svc.createOrder products items discount tax = some o →
        o.subtotal = Svc.itemsTotal o.items ∧
        o.total = Svc.itemsTotal o.items - discount + tax) ∧
    (∀ (products : List Product) (o : Svc.SvcOrder)
        (items : List Svc.ItemReq) (o2 : Svc.SvcOrder),
      Svc.updateOrderItems products o items = some o2 →
        o2.subtotal = Svc.itemsTotal o2.items ∧
        o2.total = Svc.itemsTotal o2.items - o.discount + o.tax) ∧
    (∀ (crops : List Crop) (customers : List Customer)
        (req : V1.CreateOrderReq)
        (out : List (V1.OrderRec × List V1.BatchSpec × List V1.TaskSpec)),
      V1.createOrder crops customers req = some out →
        ∀ e ∈ out, e.1.total = V1.itemsPriceTotal e.1.items) := by
  refine ⟨?_, ?_, ?_⟩
  · intro products items discount tax o h
    unfold Svc.createOrder at h
    cases hm : Svc.mkItems products items with
    | none => simp [hm] at h
    | some recs =>
      simp only [hm] at h
      simp at h
      have hcols := Svc.mkItems_total_col products items recs hm
      have hspec := Svc.recalculateTotals_spec
        { items := recs, discount := discount, tax := tax,
          subtotal := 0, total := 0 } hcols
      rw [← h]
      have hitems : (Svc.recalculateTotals
          { items := recs, discount := discount, tax := tax,
            subtotal := 0, total := 0 }).items = recs := hspec.2.2.1
      constructor
      · rw [hspec.1, hitems]
      · rw [hspec.2.1, hitems]
  · intro products o items o2 h
    unfold Svc.updateOrderItems at h
    cases hm : Svc.mkItems products items with
    | none => simp [hm] at h
    | some recs =>
      simp only [hm] at h
      simp at h
      have hcols := Svc.mkItems_total_col products items recs hm
      have hspec := Svc.recalculateTotals_spec { o with items := recs }
        hcols
      rw [← h]
      have hitems : (Svc.recalculateTotals { o with items := recs }).items
          = recs := hspec.2.2.1
      constructor
      · rw [hspec.1, hitems]
      · rw [hspec.2.1, hitems]
  · intro crops customers req out h e he
    unfold V1.createOrder at h
    cases hc : findCustomer customers req.customerId with
    | none => simp [hc] at h
    | some cust =>
      simp only [hc] at h
      simp at h
      rw [← h] at he
      rcases List.mem_map.mp he with ⟨d, _, hde⟩
      rw [← hde]
      simp [V1.orderTotal_eq_sum]

/-- Claim C7 witness: the first conjunct applied at the concrete
discounted order (subtotal 20, total 15). -/
theorem C7_totals_recalculated_witness :
    ∃ o : Svc.SvcOrder,
      Svc.createOrder prodsC7 itemsC7 5 0 = some o ∧
      o.subtotal = Svc.itemsTotal o.items ∧
      o.total = Svc.itemsTotal o.items - 5 + 0 := by
  have hsome : ∃ o, Svc.createOrder prodsC7 itemsC7 5 0 = some o := by
    simp [Svc.createOrder, Svc.mkItems, prodsC7, itemsC7, findProduct,
      jsOrRat]
  rcases hsome with ⟨o, ho⟩
  exact ⟨o, ho, C7_totals_recalculated.1 prodsC7 itemsC7 5 0 o ho⟩

theorem bySowDate_trans (a b c : Plan.PlanEntry)
    (h1 : Plan.bySowDate a b = true) (h2 : Plan.bySowDate b c = true) :
    Plan.bySowDate a c = true := by
  simp [Plan.bySowDate] at h1 h2 ⊢
  omega

theorem bySowDate_total (a b : Plan.PlanEntry) :
    (Plan.bySowDate a b || Plan.bySowDate b a) = true := by
  simp [Plan.bySowDate]
  omega

theorem generateSowingPlan_sorted (orders : List Plan.PlanOrder)
    (batches : List Plan.PBatch) (startDate endDate : Int)
    (wasteBuffer : ℚ) (includeBuffer : Bool) :
    (Plan.generateSowingPlan orders batches startDate endDate wasteBuffer
      includeBuffer).Pairwise (fun a b => a.sowDate ≤ b.sowDate) := by
  have h := List.sorted_mergeSort bySowDate_trans bySowDate_total
    ((Plan.demandGroups orders startDate endDate).map
      (Plan.mkPlanEntry batches wasteBuffer includeBuffer))
  unfold Plan.generateSowingPlan
  refine h.imp ?_
  intro a b hab
  simpa [Plan.bySowDate] using hab

/-- Crop type of the rounding counterexample (growth 10, no blackout,
yield 8). -/
def ctC6 : Plan.CropType :=
  { id := 5, growthDays := some 10, blackoutDays := some 0,
    expectedYield := some 8 }

/-- An in-scope pending order demanding a fractional quantity 0.333. -/
def ordC6 : Plan.PlanOrder :=
  { id := 1, deliveryDate := 500, status := .pending,
    items := [{ quantity := 333/1000, cropType := some ctC6 }] }

/-- Claim C6 counterexample: for demand 0.333 with the default 10%
buffer, the plan reports requiredQuantity 0.37 — the exact value
0.333 × 1.1 = 0.3663 rounded to two decimals — so the reported field is
not demandQuantity × (1 + wasteBuffer). -/
theorem C6_required_quantity_rounded_cex :
    (Plan.generateSowingPlan [ordC6] [] 490 510 (1/10) true).map
      (fun e => e.requiredQuantity) = [37/100] ∧
    (37/100 : ℚ) ≠ (333/1000) * (1 + 1/10) := by
  constructor
  · simp [Plan.generateSowingPlan, Plan.demandGroups, Plan.inScope,
      Plan.addOrderItems, Plan.addDemand, Plan.mkPlanEntry,
      Plan.countExisting, ordC6, ctC6, jsOrInt, jsOrRat, jsCeil, jsRound,
      jsFloor]
    norm_num
  · norm_num

/-- Claim C6 (amended): the sowing plan is sorted by sowDate ascending,
and each demand group (cropId, deliveryDate) whose crop type carries
explicit nonzero growth and yield parameters yields the entry
sowDate = deliveryDate − (blackoutDays + growthDays),
requiredQuantity = demandQuantity × (1 + wasteBuffer) when includeBuffer
(else demandQuantity) rounded to two decimals — the unrounded value
feeds unitsNeeded = ⌈requiredQuantity / yieldPerUnit⌉ — and
additionalUnitsNeeded = max 0 (unitsNeeded − existingBatches). -/
theorem C6_plan_entry_fields (batches : List Plan.PBatch)
    (wasteBuffer : ℚ) (includeBuffer : Bool) (dem : Plan.Demand)
    (b g : Int) (y : ℚ)
    (hb : dem.cropType.blackoutDays = some b)
    (hg : dem.cropType.growthDays = some g) (hg0 : g ≠ 0)
    (hy : dem.cropType.expectedYield = some y) (hy0 : y ≠ 0) :
    Plan.mkPlanEntry batches wasteBuffer includeBuffer dem =
      (let rq := if includeBuffer then
          dem.totalQuantity * (1 + wasteBuffer)
        else dem.totalQuantity
       let sowDate := dem.deliveryDate - (b + g)
       let existing :=
         (Plan.countExisting batches dem.cropType.id sowDate : Int)
       { cropTypeId := dem.cropType.id, sowDate := sowDate,
         harvestDate := dem.deliveryDate,
         demandQuantity := dem.totalQuantity,
         requiredQuantity := ((round (rq * 100) : ℤ) : ℚ) / 100,
         yieldPerUnit := y, unitsNeeded := ⌈rq / y⌉,
         existingBatches := existing,
         additionalUnitsNeeded := max 0 (⌈rq / y⌉ - existing) }) := by
  simp only [Plan.mkPlanEntry]
  rw [hb, hg, hy]
  simp only [jsOrInt, jsOrRat, if_neg hg0, if_neg hy0,
    jsCeil_eq_ceil, jsRound_eq_round]
  by_cases hb0 : b = 0 <;> simp [hb0]

/-- The crop type of the spec's concrete sowing example: growth 10,
blackout 4, yield 8 per tray. -/
def ctDemC6 : Plan.CropType :=
  { id := 3, growthDays := some 10, blackoutDays := some 4,
    expectedYield := some 8 }

/-- The demand group of the spec's concrete sowing example: 50 units of
a crop yielding 8 per tray. -/
def demC6 : Plan.Demand :=
  { cropType := ctDemC6, deliveryDate := 500, totalQuantity := 50 }

/-- A non-terminal batch already scheduled for the example's sow date. -/
def pbC6 : Plan.PBatch :=
  { cropTypeId := 3, plannedSowDate := 486, terminal := false }

/-- Claim C6 witness: the amended statement at the spec's example —
demand 50, yield 8, 10% buffer gives requiredQuantity 55 and
unitsNeeded 7; with 2 existing batches, additionalUnitsNeeded is 5. -/
theorem C6_plan_entry_fields_witness :
    Plan.mkPlanEntry [pbC6, pbC6] (1/10) true demC6 =
      { cropTypeId := 3, sowDate := 486, harvestDate := 500,
        demandQuantity := 50, requiredQuantity := 55, yieldPerUnit := 8,
        unitsNeeded := 7, existingBatches := 2,
        additionalUnitsNeeded := 5 } := by
  rw [C6_plan_entry_fields [pbC6, pbC6] (1/10) true demC6 4 10 8 rfl rfl
    (by norm_num) rfl (by norm_num)]
  simp only [demC6, ctDemC6, pbC6, Plan.countExisting]
  norm_num [Plan.PlanEntry.mk.injEq, Int.ceil_eq_iff]
  have hc : ⌈(55 : ℚ) / 8⌉ = (7 : ℤ) := by
    rw [Int.ceil_eq_iff]
    norm_num
  rw [hc]
  omega

/-- Claim C10: a demand group whose crop type has no growthDays uses a
default of 7 growth days for the sow date; one with no expectedYield
uses a default yieldPerUnit of 8 for unitsNeeded; and planning never
fails on missing parameters — every demand group yields exactly one plan
entry. -/
theorem C10_planner_defaults :
    (∀ (batches : List Plan.PBatch) (wasteBuffer : ℚ)
        (includeBuffer : Bool) (dem : Plan.Demand),
      dem.cropType.growthDays = none →
        (Plan.mkPlanEntry batches wasteBuffer includeBuffer dem).sowDate =
          dem.deliveryDate -
            (jsOrInt dem.cropType.blackoutDays 0 + 7)) ∧
    (∀ (batches : List Plan.PBatch) (wasteBuffer : ℚ)
        (includeBuffer : Bool) (dem : Plan.Demand),
      dem.cropType.expectedYield = none →
        (Plan.mkPlanEntry batches wasteBuffer includeBuffer
            dem).yieldPerUnit = 8 ∧
        (Plan.mkPlanEntry batches wasteBuffer includeBuffer
            dem).unitsNeeded =
          ⌈(if includeBuffer then dem.totalQuantity * (1 + wasteBuffer)
            else dem.totalQuantity) / 8⌉) ∧
    (∀ (orders : List Plan.PlanOrder) (batches : List Plan.PBatch)
        (startDate endDate : Int) (wasteBuffer : ℚ)
        (includeBuffer : Bool),
      (Plan.generateSowingPlan orders batches startDate endDate
        wasteBuffer includeBuffer).length =
        (Plan.demandGroups orders startDate endDate).length) := by
  refine ⟨?_, ?_, ?_⟩
  · intro batches wasteBuffer includeBuffer dem hg
    simp only [Plan.mkPlanEntry]
    rw [hg]
    simp [jsOrInt]
  · intro batches wasteBuffer includeBuffer dem hy
    simp only [Plan.mkPlanEntry]
    rw [hy]
    simp [jsOrRat, jsCeil_eq_ceil]
  · intro orders batches startDate endDate wasteBuffer includeBuffer
    unfold Plan.generateSowingPlan
    rw [List.length_mergeSort, List.length_map]

/-- A crop type carrying no growth or yield data at all. -/
def ctDemC10 : Plan.CropType :=
  { id := 9, growthDays := none, blackoutDays := none,
    expectedYield := none }

/-- A demand group over a crop type with no growth or yield data. -/
def demC10 : Plan.Demand :=
  { cropType := ctDemC10, deliveryDate := 500, totalQuantity := 50 }

/-- Claim C10 witness: with growthDays and expectedYield missing, the
entry's sow date is deliveryDate − 7 = 493 and the yield per unit is the
default 8, giving unitsNeeded ⌈55/8⌉ = 7. -/
theorem C10_planner_defaults_witness :
    (Plan.mkPlanEntry [] (1/10) true demC10).sowDate = 493 ∧
    (Plan.mkPlanEntry [] (1/10) true demC10).yieldPerUnit = 8 ∧
    (Plan.mkPlanEntry [] (1/10) true demC10).unitsNeeded = 7 := by
  refine ⟨?_, (C10_planner_defaults.2.1 [] (1/10) true demC10 rfl).1, ?_⟩
  · rw [C10_planner_defaults.1 [] (1/10) true demC10 rfl]
    decide
  · rw [(C10_planner_defaults.2.1 [] (1/10) true demC10 rfl).2]
    rw [← jsCeil_eq_ceil]
    norm_num [jsCeil, demC10]

/-- Claim C9 (amended): a single-task status update sets both completion
stamps on `completed` and clears both on any other status, while a bulk
status update sets both on `completed` but leaves both untouched on any
other status. -/
theorem C9_completion_stamp_rules (t : TaskRec) (s : TaskStatus)
    (now : Int) (uid : Nat) :
    (TaskCtl.updateTask t (some s) now uid).completedAt =
      (if s = .completed then some now else none) ∧
    (TaskCtl.updateTask t (some s) now uid).completedBy =
      (if s = .completed then some uid else none) ∧
    (TaskCtl.bulkApply t s now uid).completedAt =
      (if s = .completed then some now else t.completedAt) ∧
    (TaskCtl.bulkApply t s now uid).completedBy =
      (if s = .completed then some uid else t.completedBy) ∧
    (TaskCtl.updateTask t (some s) now uid).status = s ∧
    (TaskCtl.bulkApply t s now uid).status = s := by
  unfold TaskCtl.updateTask TaskCtl.bulkApply
  by_cases h : s = .completed <;> simp [h]

namespace V1

theorem instTasks_le_id (l : List TaskSpec) :
    ∀ n : Nat, ∀ t ∈ instTasks n l, n ≤ t.id := by
  induction l with
  | nil => intro n t ht; simp [instTasks] at ht
  | cons s rest ih =>
    intro n t ht
    rcases List.mem_cons.mp ht with h | h
    · rw [h]; exact le_refl n
    · exact Nat.le_of_succ_le (ih (n + 1) t h)

theorem instTasks_orderId (l : List TaskSpec) (oid : Nat)
    (h : ∀ s ∈ l, s.orderId = oid) :
    ∀ n : Nat, ∀ t ∈ instTasks n l, t.orderId = some oid := by
  induction l with
  | nil => intro n t ht; simp [instTasks] at ht
  | cons s rest ih =>
    intro n t ht
    rcases List.mem_cons.mp ht with heq | hmem
    · rw [heq]
      simp [instTask, h s (List.mem_cons_self _ _)]
    · exact ih (fun x hx => h x (List.mem_cons_of_mem _ hx)) (n + 1) t hmem

theorem instTasks_length (l : List TaskSpec) :
    ∀ n : Nat, (instTasks n l).length = l.length := by
  induction l with
  | nil => intro n; rfl
  | cons s rest ih => intro n; simp [instTasks, ih (n + 1)]

theorem instBatches_le_id (l : List BatchSpec) :
    ∀ n : Nat, ∀ b ∈ instBatches n l, n ≤ b.id := by
  induction l with
  | nil => intro n b hb; simp [instBatches] at hb
  | cons s rest ih =>
    intro n b hb
    rcases List.mem_cons.mp hb with h | h
    · rw [h]; exact le_refl n
    · exact Nat.le_of_succ_le (ih (n + 1) b h)

theorem instBatches_orderId (l : List BatchSpec) (oid : Nat)
    (h : ∀ s ∈ l, s.orderId = oid) :
    ∀ n : Nat, ∀ b ∈ instBatches n l, b.orderId = oid := by
  induction l with
  | nil => intro n b hb; simp [instBatches] at hb
  | cons s rest ih =>
    intro n b hb
    rcases List.mem_cons.mp hb with heq | hmem
    · rw [heq]
      simp [instBatch, h s (List.mem_cons_self _ _)]
    · exact ih (fun x hx => h x (List.mem_cons_of_mem _ hx)) (n + 1) b hmem

theorem instBatches_length (l : List BatchSpec) :
    ∀ n : Nat, (instBatches n l).length = l.length := by
  induction l with
  | nil => intro n; rfl
  | cons s rest ih => intro n; simp [instBatches, ih (n + 1)]

theorem patchCustomer_id (customers : List Customer) (o : OrderRec)
    (pc : Option Nat) : (patchCustomer customers o pc).id = o.id := by
  cases pc with
  | none => rfl
  | some cid =>
    unfold patchCustomer
    cases h : findCustomer customers cid <;> simp [h]

theorem patchDateType_id (o : OrderRec) (pd : Option DateType) :
    (patchDateType o pd).id = o.id := by
  cases pd <;> rfl

theorem patchTargetDate_id (o : OrderRec) (pt : Option Int) :
    (patchTargetDate o pt).id = o.id := by
  cases pt <;> rfl

theorem patchOffset_id (o : OrderRec) (po : Option Int) :
    (patchOffset o po).id = o.id := by
  cases po <;> rfl

theorem patchStatus_id (o : OrderRec) (ps : Option OrderStatus) :
    (patchStatus o ps).id = o.id := by
  cases ps <;> rfl

theorem patchItems_id (crops : List Crop) (o : OrderRec)
    (pi : Option (List OrderItem)) :
    (patchItems crops o pi).id = o.id := by
  cases pi <;> rfl

theorem applyPatch_id (crops : List Crop) (customers : List Customer)
    (o : OrderRec) (p : OrderPatch) :
    (applyPatch crops customers o p).id = o.id := by
  unfold applyPatch
  rw [patchItems_id, patchStatus_id, patchOffset_id, patchTargetDate_id,
    patchDateType_id, patchCustomer_id]

theorem applyPatch_items (crops : List Crop) (customers : List Customer)
    (o : OrderRec) (p : OrderPatch) (newItems : List OrderItem)
    (h : p.items = some newItems) :
    (applyPatch crops customers o p).items = newItems := by
  unfold applyPatch
  rw [h]
  rfl

end V1

/-- Claim C8: an `updateOrder` that supplies a new item list and leaves
the order non-cancelled fully replaces the order's tasks and batches: no
pre-update task or batch of the order survives (fresh ids are larger
than every stored id), and the counts of tasks and batches linked to the
order equal the counts expected for the new item list (per-item tasks by
crop category plus the delivery task; one batch per resolvable item). -/
theorem C8_update_replaces_tasks_batches (db : DB) (crops : List Crop)
    (customers : List Customer) (o : V1.OrderRec) (p : V1.OrderPatch)
    (newItems : List OrderItem)
    (hwfT : ∀ t ∈ db.tasks, t.id < db.nextTaskId)
    (hwfB : ∀ b ∈ db.batches, b.id < db.nextBatchId)
    (hitems : p.items = some newItems)
    (hstat : (V1.applyPatch crops customers o p).status ≠ .cancelled) :
    (∀ t ∈ (V1.updateOrder db crops customers o p).1.tasks,
      t.orderId = some o.id → t ∉ db.tasks) ∧
    (∀ b ∈ (V1.updateOrder db crops customers o p).1.batches,
      b.orderId = o.id → b ∉ db.batches) ∧
    ((V1.updateOrder db crops customers o p).1.tasks.filter
      (fun t => decide (t.orderId = some o.id))).length =
      V1.expectedTaskCount crops newItems ∧
    ((V1.updateOrder db crops customers o p).1.batches.filter
      (fun b => decide (b.orderId = o.id))).length =
      V1.expectedBatchCount crops newItems := by
  have hupd : V1.updateOrder db crops customers o p =
      (V1.persistGenerated
        { db with
          tasks := db.tasks.filter (fun t => t.orderId ≠ some o.id)
          batches := db.batches.filter (fun b => b.orderId ≠ o.id) }
        crops (V1.applyPatch crops customers o p),
       V1.applyPatch crops customers o p) := by
    unfold V1.updateOrder
    rw [if_neg hstat]
  have hid : (V1.applyPatch crops customers o p).id = o.id :=
    V1.applyPatch_id crops customers o p
  have hnew : (V1.applyPatch crops customers o p).items = newItems :=
    V1.applyPatch_items crops customers o p newItems hitems
  rw [hupd]
  simp only [V1.persistGenerated]
  refine ⟨?_, ?_, ?_, ?_⟩
  · intro t ht hto
    rcases List.mem_append.mp ht with h | h
    · have := (List.mem_filter.mp h).2
      simp at this
      exact absurd hto this
    · intro hmem
      have h1 := V1.instTasks_le_id _ db.nextTaskId t h
      have h2 := hwfT t hmem
      omega
  · intro b hb hbo
    rcases List.mem_append.mp hb with h | h
    · have := (List.mem_filter.mp h).2
      simp at this
      exact absurd hbo this
    · intro hmem
      have h1 := V1.instBatches_le_id _ db.nextBatchId b h
      have h2 := hwfB b hmem
      omega
  · rw [List.filter_append, List.length_append]
    have hold : ((db.tasks.filter
        (fun t => t.orderId ≠ some o.id)).filter
        (fun t => decide (t.orderId = some o.id))).length = 0 := by
      rw [List.length_eq_zero]
      rw [List.filter_eq_nil_iff]
      intro t ht
      have := (List.mem_filter.mp ht).2
      simp at this ⊢
      exact this
    have hnewf : (V1.instTasks db.nextTaskId
        (V1.generateTasksFromOrder crops
          (V1.applyPatch crops customers o p))).filter
        (fun t => decide (t.orderId = some o.id)) =
        V1.instTasks db.nextTaskId
          (V1.generateTasksFromOrder crops
            (V1.applyPatch crops customers o p)) := by
      rw [List.filter_eq_self]
      intro t ht
      have := V1.instTasks_orderId _
        (V1.applyPatch crops customers o p).id
        (V1.generateTasksFromOrder_orderId crops _) db.nextTaskId t ht
      rw [hid] at this
      simp [this]
    rw [hold, hnewf, V1.instTasks_length,
      V1.generateTasksFromOrder_length, hnew]
    omega
  · rw [List.filter_append, List.length_append]
    have hold : ((db.batches.filter
        (fun b => b.orderId ≠ o.id)).filter
        (fun b => decide (b.orderId = o.id))).length = 0 := by
      rw [List.length_eq_zero]
      rw [List.filter_eq_nil_iff]
      intro b hb
      have := (List.mem_filter.mp hb).2
      simp at this ⊢
      exact this
    have hnewf : (V1.instBatches db.nextBatchId
        (V1.orderItemBatches crops (V1.applyPatch crops customers o p)
          (V1.applyPatch crops customers o p).items)).filter
        (fun b => decide (b.orderId = o.id)) =
        V1.instBatches db.nextBatchId
          (V1.orderItemBatches crops (V1.applyPatch crops customers o p)
            (V1.applyPatch crops customers o p).items) := by
      rw [List.filter_eq_self]
      intro b hb
      have := V1.instBatches_orderId _
        (V1.applyPatch crops customers o p).id
        (V1.orderItemBatches_orderId crops _ _) db.nextBatchId b hb
      rw [hid] at this
      simp [this]
    rw [hold, hnewf, V1.instBatches_length, V1.orderItemBatches_length,
      hnew]
    omega

/-- A pre-update task row linked to order 5. -/
def taskOld : TaskRec :=
  { id := 1, ttype := .plant, date := 0, cropId := some 1,
    orderId := some 5, status := .pending, completedAt := none,
    completedBy := none }

/-- A pre-update batch row linked to order 5. -/
def batchOld : BatchRec :=
  { id := 1, cropId := 1, orderId := 5, startDate := 0, harvestDate := 0,
    quantity := 1 }

/-- A database holding only order 5's old task and batch. -/
def dbW : DB :=
  { tasks := [taskOld], batches := [batchOld], nextTaskId := 10,
    nextBatchId := 10 }

/-- Order 5 before the update. -/
def ordW : V1.OrderRec :=
  { id := 5, customerId := 1, dateType := .harvest, targetDate := 100,
    deliveryDate := 99, deliveryOffset := 1,
    items := [{ cropId := 2, quantity := 1, price := 1 }], total := 1,
    status := .pending }

/-- A patch replacing the items with one soak-crop item. -/
def patchW : V1.OrderPatch :=
  { customerId := none, dateType := none, targetDate := none,
    deliveryOffset := none,
    items := some [{ cropId := 1, quantity := 5, price := 2 }],
    status := none }

/-- Claim C8 witness: updating order 5 with one microgreens-with-soak
item leaves no pre-update task or batch linked to the order, and links
exactly 5 tasks (soak, plant, uncover, harvest, delivery) and 1 batch. -/
theorem C8_update_replaces_tasks_batches_witness :
    ((∀ t ∈ (V1.updateOrder dbW [cropA] [custA] ordW patchW).1.tasks,
      t.orderId = some ordW.id → t ∉ dbW.tasks) ∧
    (∀ b ∈ (V1.updateOrder dbW [cropA] [custA] ordW patchW).1.batches,
      b.orderId = ordW.id → b ∉ dbW.batches) ∧
    ((V1.updateOrder dbW [cropA] [custA] ordW patchW).1.tasks.filter
      (fun t => decide (t.orderId = some ordW.id))).length =
      V1.expectedTaskCount [cropA]
        [{ cropId := 1, quantity := 5, price := 2 }] ∧
    ((V1.updateOrder dbW [cropA] [custA] ordW patchW).1.batches.filter
      (fun b => decide (b.orderId = ordW.id))).length =
      V1.expectedBatchCount [cropA]
        [{ cropId := 1, quantity := 5, price := 2 }]) ∧
    V1.expectedTaskCount [cropA]
      [{ cropId := 1, quantity := 5, price := 2 }] = 5 ∧
    V1.expectedBatchCount [cropA]
      [{ cropId := 1, quantity := 5, price := 2 }] = 1 :=
  ⟨C8_update_replaces_tasks_batches dbW [cropA] [custA] ordW patchW
      [{ cropId := 1, quantity := 5, price := 2 }]
      (by decide) (by decide) rfl (by decide),
   by decide, by decide⟩
